import Mathlib

/-!
Verification of the caption-generation pipeline in Speech_To_Text.py.

The Python source is shallowly embedded: float seconds values become exact
rationals, Python round (round-half-to-even) becomes pyRound, Python floor
division on int becomes Int.fdiv, f-string zero padding becomes padInt,
and the three caption writers become pure functions from a segment list to
the full file content they would write.
-/

/-- Python round on a rational: nearest integer, ties to even. -/
def pyRound (q : ℚ) : ℤ :=
  if q - ⌊q⌋ < 1/2 then ⌊q⌋
  else if 1/2 < q - ⌊q⌋ then ⌊q⌋ + 1
  else if ⌊q⌋ % 2 = 0 then ⌊q⌋ else ⌊q⌋ + 1

/-- Decimal digit character, as produced by Python decimal formatting. -/
def digitChar (d : ℕ) : Char := Char.ofNat (48 + d % 10)

/-- Fuelled decimal rendering of a natural number, most significant digit first. -/
def natReprCore : ℕ → ℕ → List Char → List Char
  | 0, _, acc => acc
  | fuel+1, n, acc =>
    if n / 10 = 0 then digitChar (n % 10) :: acc
    else natReprCore fuel (n / 10) (digitChar (n % 10) :: acc)

/-- Decimal rendering of a natural number. -/
def natRepr (n : ℕ) : List Char := natReprCore (n + 1) n []

/-- Left-pad a character list with zeros to the given width. -/
def padLeft (w : ℕ) (cs : List Char) : List Char :=
  List.replicate (w - cs.length) '0' ++ cs

/-- Zero-padded decimal rendering of a natural, as Python 0-padded format. -/
def padNat (w : ℕ) (n : ℕ) : String := String.mk (padLeft w (natRepr n))

/-- Zero-padded decimal rendering of an integer, as Python 02d or 03d format:
the sign comes first and the zeros pad after the sign. -/
def padInt (w : ℕ) (z : ℤ) : String :=
  if z < 0 then "-" ++ String.mk (padLeft (w - 1) (natRepr z.natAbs))
  else String.mk (padLeft w (natRepr z.toNat))

/-- Embedding of format_timestamp_srt (src/Speech_To_Text.py lines 73-84):
ms = int(round(seconds * 1000)); h = ms // (3600 * 1000); ms -= h * 3600 * 1000;
m = ms // (60 * 1000); ms -= m * 60 * 1000; s = ms // 1000; ms -= s * 1000;
returns the string h:02d : m:02d : s:02d , ms:03d. -/
def format_timestamp_srt (seconds : ℚ) : String :=
  let ms := pyRound (seconds * 1000)
  let h := ms.fdiv (3600 * 1000)
  let ms1 := ms - h * (3600 * 1000)
  let m := ms1.fdiv (60 * 1000)
  let ms2 := ms1 - m * (60 * 1000)
  let s := ms2.fdiv 1000
  let ms3 := ms2 - s * 1000
  padInt 2 h ++ ":" ++ padInt 2 m ++ ":" ++ padInt 2 s ++ "," ++ padInt 3 ms3

/-- Embedding of format_timestamp_vtt (src/Speech_To_Text.py lines 86-97):
identical arithmetic to format_timestamp_srt, period instead of comma. -/
def format_timestamp_vtt (seconds : ℚ) : String :=
  let ms := pyRound (seconds * 1000)
  let h := ms.fdiv (3600 * 1000)
  let ms1 := ms - h * (3600 * 1000)
  let m := ms1.fdiv (60 * 1000)
  let ms2 := ms1 - m * (60 * 1000)
  let s := ms2.fdiv 1000
  let ms3 := ms2 - s * 1000
  padInt 2 h ++ ":" ++ padInt 2 m ++ ":" ++ padInt 2 s ++ "." ++ padInt 3 ms3

/-- One transcription segment: the dicts with keys start, end, text built by
the transcription adapters (src/Speech_To_Text.py lines 139 and 154). -/
structure Segment where
  start : ℚ
  «end» : ℚ
  text : String
deriving DecidableEq

/-- Whitespace set of the Python str.strip method (ASCII part). -/
def isPySpace (c : Char) : Bool :=
  c = ' ' || c = '\t' || c = '\n' || c = '\r' || c = '\x0b' || c = '\x0c'

/-- Embedding of the Python str.strip method: drop leading and trailing
whitespace. -/
def pyStrip (s : String) : String :=
  String.mk (((s.data.dropWhile isPySpace).reverse.dropWhile isPySpace).reverse)

/-- Embedding of the Python replace of a newline by a space: since the
pattern is a single character, it is a character map. -/
def replaceNl (s : String) : String :=
  String.mk (s.data.map (fun c => if c = '\n' then ' ' else c))

/-- Embedding of write_srt (src/Speech_To_Text.py lines 99-110): the full
content written to the .srt file. For each segment, numbered from 1: index
line, timestamp line, stripped text with newlines replaced, blank line. -/
def write_srt (segments : List Segment) : String :=
  String.join ((List.enumFrom 1 segments).map (fun p =>
    String.mk (natRepr p.1) ++ "\n" ++
    format_timestamp_srt p.2.start ++ " --> " ++ format_timestamp_srt p.2.«end» ++ "\n" ++
    replaceNl (pyStrip p.2.text) ++ "\n\n"))

/-- Embedding of write_vtt (src/Speech_To_Text.py lines 112-120): header
line, blank line, then per-segment cue blocks. -/
def write_vtt (segments : List Segment) : String :=
  "WEBVTT\n\n" ++ String.join (segments.map (fun seg =>
    format_timestamp_vtt seg.start ++ " --> " ++ format_timestamp_vtt seg.«end» ++ "\n" ++
    replaceNl (pyStrip seg.text) ++ "\n\n"))

/-- Embedding of write_txt (src/Speech_To_Text.py lines 122-126): per
segment, the stripped text followed by a newline. No newline replacement. -/
def write_txt (segments : List Segment) : String :=
  String.join (segments.map (fun seg => pyStrip seg.text ++ "\n"))

/-- The four timestamp fields derived from the single total-millisecond
integer by division and modulo, for a nonnegative input. -/
def tsFields (q : ℚ) : ℕ × ℕ × ℕ × ℕ :=
  let t := (pyRound (q * 1000)).toNat
  (t / 3600000, t % 3600000 / 60000, t % 3600000 % 60000 / 1000,
    t % 3600000 % 60000 % 1000)

/-- Assemble a timestamp string from its four fields and a separator. -/
def stampStr (sep : String) (f : ℕ × ℕ × ℕ × ℕ) : String :=
  padNat 2 f.1 ++ ":" ++ padNat 2 f.2.1 ++ ":" ++ padNat 2 f.2.2.1 ++ sep ++
    padNat 3 f.2.2.2

/-- Numeric lexicographic order on timestamp field quadruples. -/
def tsLe (a b : ℕ × ℕ × ℕ × ℕ) : Prop :=
  a.1 < b.1 ∨ (a.1 = b.1 ∧ (a.2.1 < b.2.1 ∨ (a.2.1 = b.2.1 ∧
    (a.2.2.1 < b.2.2.1 ∨ (a.2.2.1 = b.2.2.1 ∧ a.2.2.2 ≤ b.2.2.2)))))

/-- Replace a comma character by a period, all other characters unchanged. -/
def swapComma (c : Char) : Char := if c = ',' then '.' else c

/-- Replace every comma in a string by a period. -/
def commaToPeriod (s : String) : String := String.mk (s.data.map swapComma)

/-- Environment of one transcribe run: which imports succeeded at module
load (src/Speech_To_Text.py lines 29-38), whether the input path exists,
whether its extension is a known audio extension, whether ffmpeg resolves
and succeeds, and what each backend would produce if invoked. -/
structure TranscribeEnv where
  inputExists : Bool
  isAudioExt : Bool
  ffmpegOnPath : Bool
  ffmpegOk : Bool
  fwImportOk : Bool
  owImportOk : Bool
  fwRun : Except String (List Segment)
  owRun : Except String (List Segment)

/-- Observable outcome of one transcribe run: the returned segments or the
raised error, and the fate of the temporary directory. -/
structure TranscribeOutcome where
  result : Except String (List Segment)
  tempDirCreated : Bool
  tempDirRemoved : Bool

/-- Embedding of the module-level backend selection flag
(src/Speech_To_Text.py line 29-33): true iff the faster_whisper import
succeeded. -/
def USE_FASTER_WHISPER (env : TranscribeEnv) : Bool := env.fwImportOk

/-- Whether the whisper module object is loaded: its import is attempted
only when the faster_whisper import failed (src/Speech_To_Text.py lines
34-38). -/
def whisperLoaded (env : TranscribeEnv) : Bool := !env.fwImportOk && env.owImportOk

/-- Embedding of transcribe (src/Speech_To_Text.py lines 158-205): check
the input exists, create the temporary directory, normalize or extract the
audio with ffmpeg, call the backend chosen at import time, and run the
finally block, which is a pass and removes nothing. -/
def transcribe (env : TranscribeEnv) : TranscribeOutcome :=
  if !env.inputExists then
    { result := Except.error "Input file not found",
      tempDirCreated := false, tempDirRemoved := false }
  else
    let extracted : Except String Unit :=
      if !env.ffmpegOnPath then
        Except.error "ffmpeg not found on PATH. Please install ffmpeg."
      else if !env.ffmpegOk then
        (if env.isAudioExt then Except.error "ffmpeg failed"
         else Except.error "ffmpeg failed to extract audio.")
      else Except.ok ()
    let result : Except String (List Segment) :=
      match extracted with
      | Except.error e => Except.error e
      | Except.ok _ =>
        if USE_FASTER_WHISPER env then env.fwRun
        else if whisperLoaded env then env.owRun
        else Except.error
          "No whisper backend available. Install faster-whisper or openai-whisper."
    { result := result, tempDirCreated := true, tempDirRemoved := false }

/-- Embedding of the tail of main (src/Speech_To_Text.py lines 243-250):
the list of output files written, as path-content pairs, given the segments
returned by transcribe. An empty segment list returns early and writes
nothing. -/
def main_writes (base : String) (segments : List Segment) : List (String × String) :=
  if segments.isEmpty then []
  else
    [(base ++ ".srt", write_srt segments),
     (base ++ ".vtt", write_vtt segments),
     (base ++ ".txt", write_txt segments)]

/-! Basic facts about pyRound. -/

theorem floor_le_pyRound (q : ℚ) : ⌊q⌋ ≤ pyRound q := by
  unfold pyRound; split_ifs <;> omega

theorem pyRound_le_floor_add_one (q : ℚ) : pyRound q ≤ ⌊q⌋ + 1 := by
  unfold pyRound; split_ifs <;> omega

theorem pyRound_nonneg {q : ℚ} (h : 0 ≤ q) : 0 ≤ pyRound q :=
  le_trans (Int.floor_nonneg.mpr h) (floor_le_pyRound q)

theorem pyRound_mono {x y : ℚ} (h : x ≤ y) : pyRound x ≤ pyRound y := by
  have hf : ⌊x⌋ ≤ ⌊y⌋ := Int.floor_le_floor h
  rcases lt_or_eq_of_le hf with hlt | heq
  · calc pyRound x ≤ ⌊x⌋ + 1 := pyRound_le_floor_add_one x
      _ ≤ ⌊y⌋ := by omega
      _ ≤ pyRound y := floor_le_pyRound y
  · unfold pyRound
    rw [heq]
    split_ifs <;> first | omega | linarith

theorem pyRound_nearest (q : ℚ) : |q - (pyRound q : ℚ)| ≤ 1/2 := by
  have h1 : ((⌊q⌋ : ℤ) : ℚ) ≤ q := Int.floor_le q
  have h2 : q < ⌊q⌋ + 1 := Int.lt_floor_add_one q
  unfold pyRound
  split_ifs <;> rw [abs_le] <;> push_cast <;> constructor <;> linarith

theorem pyRound_intCast (n : ℤ) : pyRound ((n : ℚ)) = n := by
  unfold pyRound
  rw [Int.floor_intCast]
  norm_num

theorem pyRound_tie : pyRound ((1.9995 : ℚ) * 1000) = 2000 := by
  have h1 : ((1.9995 : ℚ) * 1000) = 3999/2 := by norm_num
  have h2 : ⌊(3999/2 : ℚ)⌋ = 1999 := by
    rw [Int.floor_eq_iff]
    norm_num
  rw [h1]
  unfold pyRound
  rw [h2]
  norm_num

/-! Structural characterization of the timestamp formatters. -/

theorem padInt_natCast (w : ℕ) (n : ℕ) :
    padInt w ((n : ℤ)) = padNat w n := by
  unfold padInt padNat
  rw [if_neg (by omega)]
  norm_num

theorem format_srt_eq_stamp (q : ℚ) (hq : 0 ≤ q) :
    format_timestamp_srt q = stampStr "," (tsFields q) := by
  have h0 : 0 ≤ pyRound (q * 1000) := pyRound_nonneg (by positivity)
  obtain ⟨t, ht⟩ : ∃ t : ℕ, pyRound (q * 1000) = (t : ℤ) :=
    ⟨(pyRound (q * 1000)).toNat, (Int.toNat_of_nonneg h0).symm⟩
  have e1 : ((t : ℤ)).fdiv (3600 * 1000) = ((t / 3600000 : ℕ) : ℤ) := by
    rw [Int.fdiv_eq_ediv _ (show (0:ℤ) ≤ 3600 * 1000 by omega)]
    omega
  have e2 : ((t : ℤ)) - ((t / 3600000 : ℕ) : ℤ) * (3600 * 1000) =
      ((t % 3600000 : ℕ) : ℤ) := by omega
  have e3 : ((t % 3600000 : ℕ) : ℤ).fdiv (60 * 1000) =
      ((t % 3600000 / 60000 : ℕ) : ℤ) := by
    rw [Int.fdiv_eq_ediv _ (show (0:ℤ) ≤ 60 * 1000 by omega)]
    omega
  have e4 : ((t % 3600000 : ℕ) : ℤ) - ((t % 3600000 / 60000 : ℕ) : ℤ) * (60 * 1000) =
      ((t % 3600000 % 60000 : ℕ) : ℤ) := by omega
  have e5 : ((t % 3600000 % 60000 : ℕ) : ℤ).fdiv 1000 =
      ((t % 3600000 % 60000 / 1000 : ℕ) : ℤ) := by
    rw [Int.fdiv_eq_ediv _ (show (0:ℤ) ≤ 1000 by omega)]
    omega
  have e6 : ((t % 3600000 % 60000 : ℕ) : ℤ) -
      ((t % 3600000 % 60000 / 1000 : ℕ) : ℤ) * 1000 =
      ((t % 3600000 % 60000 % 1000 : ℕ) : ℤ) := by omega
  simp only [format_timestamp_srt, stampStr, tsFields, ht, Int.toNat_natCast,
    e1, e2, e3, e4, e5, e6, padInt_natCast]

theorem format_vtt_eq_stamp (q : ℚ) (hq : 0 ≤ q) :
    format_timestamp_vtt q = stampStr "." (tsFields q) := by
  have h0 : 0 ≤ pyRound (q * 1000) := pyRound_nonneg (by positivity)
  obtain ⟨t, ht⟩ : ∃ t : ℕ, pyRound (q * 1000) = (t : ℤ) :=
    ⟨(pyRound (q * 1000)).toNat, (Int.toNat_of_nonneg h0).symm⟩
  have e1 : ((t : ℤ)).fdiv (3600 * 1000) = ((t / 3600000 : ℕ) : ℤ) := by
    rw [Int.fdiv_eq_ediv _ (show (0:ℤ) ≤ 3600 * 1000 by omega)]
    omega
  have e2 : ((t : ℤ)) - ((t / 3600000 : ℕ) : ℤ) * (3600 * 1000) =
      ((t % 3600000 : ℕ) : ℤ) := by omega
  have e3 : ((t % 3600000 : ℕ) : ℤ).fdiv (60 * 1000) =
      ((t % 3600000 / 60000 : ℕ) : ℤ) := by
    rw [Int.fdiv_eq_ediv _ (show (0:ℤ) ≤ 60 * 1000 by omega)]
    omega
  have e4 : ((t % 3600000 : ℕ) : ℤ) - ((t % 3600000 / 60000 : ℕ) : ℤ) * (60 * 1000) =
      ((t % 3600000 % 60000 : ℕ) : ℤ) := by omega
  have e5 : ((t % 3600000 % 60000 : ℕ) : ℤ).fdiv 1000 =
      ((t % 3600000 % 60000 / 1000 : ℕ) : ℤ) := by
    rw [Int.fdiv_eq_ediv _ (show (0:ℤ) ≤ 1000 by omega)]
    omega
  have e6 : ((t % 3600000 % 60000 : ℕ) : ℤ) -
      ((t % 3600000 % 60000 / 1000 : ℕ) : ℤ) * 1000 =
      ((t % 3600000 % 60000 % 1000 : ℕ) : ℤ) := by omega
  simp only [format_timestamp_vtt, stampStr, tsFields, ht, Int.toNat_natCast,
    e1, e2, e3, e4, e5, e6, padInt_natCast]

/-! Concrete evaluations of the formatters. -/

theorem pyRound_mul_intCast (x : ℚ) (n : ℤ) (h : x * 1000 = (n : ℚ)) :
    pyRound (x * 1000) = n := by rw [h, pyRound_intCast]

theorem fmt_srt_zero : format_timestamp_srt 0 = "00:00:00,000" := by
  simp only [format_timestamp_srt, pyRound_mul_intCast (0 : ℚ) 0 (by norm_num)]
  decide

theorem fmt_srt_three_halves : format_timestamp_srt (1.5 : ℚ) = "00:00:01,500" := by
  simp only [format_timestamp_srt, pyRound_mul_intCast (1.5 : ℚ) 1500 (by norm_num)]
  decide

theorem fmt_srt_three : format_timestamp_srt (3 : ℚ) = "00:00:03,000" := by
  simp only [format_timestamp_srt, pyRound_mul_intCast (3 : ℚ) 3000 (by norm_num)]
  decide

theorem fmt_srt_fourtwo : format_timestamp_srt (4.2 : ℚ) = "00:00:04,200" := by
  simp only [format_timestamp_srt, pyRound_mul_intCast (4.2 : ℚ) 4200 (by norm_num)]
  decide

theorem fmt_srt_tie : format_timestamp_srt (1.9995 : ℚ) = "00:00:02,000" := by
  simp only [format_timestamp_srt, pyRound_tie]
  decide

/-! Characters produced by the decimal renderer. -/

theorem digitChar_ne_comma (d : ℕ) : digitChar d ≠ ',' := by
  unfold digitChar
  have h : d % 10 < 10 := Nat.mod_lt _ (by omega)
  revert h
  generalize d % 10 = k
  intro h
  interval_cases k <;> decide

theorem natReprCore_chars (P : Char → Prop) (hP : ∀ d, P (digitChar d)) :
    ∀ (fuel n : ℕ) (acc : List Char), (∀ c ∈ acc, P c) →
      ∀ c ∈ natReprCore fuel n acc, P c := by
  intro fuel
  induction fuel with
  | zero => intro n acc hacc c hc; exact hacc c hc
  | succ fuel ih =>
    intro n acc hacc c hc
    by_cases h : n / 10 = 0
    · simp only [natReprCore, if_pos h] at hc
      rcases List.mem_cons.mp hc with hc | hc
      · exact hc ▸ hP _
      · exact hacc c hc
    · simp only [natReprCore, if_neg h] at hc
      refine ih (n / 10) (digitChar (n % 10) :: acc) ?_ c hc
      intro c2 hc2
      rcases List.mem_cons.mp hc2 with hc2 | hc2
      · exact hc2 ▸ hP _
      · exact hacc c2 hc2

theorem natRepr_ne_comma (n : ℕ) : ∀ c ∈ natRepr n, c ≠ ',' :=
  natReprCore_chars (fun c => c ≠ ',') digitChar_ne_comma (n + 1) n []
    (by intro c hc; cases hc)

theorem mem_padLeft_ne_comma (w : ℕ) (n : ℕ) :
    ∀ c ∈ padLeft w (natRepr n), c ≠ ',' := by
  intro c hc
  rcases List.mem_append.mp hc with hc | hc
  · have := List.eq_of_mem_replicate hc
    subst this; decide
  · exact natRepr_ne_comma _ c hc

theorem padInt_ne_comma (w : ℕ) (z : ℤ) : ∀ c ∈ (padInt w z).data, c ≠ ',' := by
  intro c hc
  unfold padInt at hc
  split_ifs at hc
  · rw [show (("-" ++ String.mk (padLeft (w - 1) (natRepr z.natAbs))) : String).data
        = '-' :: padLeft (w - 1) (natRepr z.natAbs) from rfl] at hc
    rcases List.mem_cons.mp hc with hc | hc
    · subst hc; decide
    · exact mem_padLeft_ne_comma _ _ c hc
  · exact mem_padLeft_ne_comma _ _ c hc

/-! Comma replacement machinery for the codec comparison. -/

theorem map_swapComma_id (l : List Char) (h : ∀ c ∈ l, c ≠ ',') :
    l.map swapComma = l := by
  induction l with
  | nil => rfl
  | cons a t ih =>
    have ha : a ≠ ',' := h a (List.mem_cons_self a t)
    simp only [List.map_cons, swapComma, if_neg ha]
    rw [ih (fun c hc => h c (List.mem_cons_of_mem a hc))]

theorem commaToPeriod_build (A B C D : String)
    (hA : ∀ c ∈ A.data, c ≠ ',') (hB : ∀ c ∈ B.data, c ≠ ',')
    (hC : ∀ c ∈ C.data, c ≠ ',') (hD : ∀ c ∈ D.data, c ≠ ',') :
    commaToPeriod (A ++ ":" ++ B ++ ":" ++ C ++ "," ++ D) =
      A ++ ":" ++ B ++ ":" ++ C ++ "." ++ D := by
  apply String.ext
  simp only [commaToPeriod, String.data_append, List.map_append]
  rw [map_swapComma_id _ hA, map_swapComma_id _ hB, map_swapComma_id _ hC,
    map_swapComma_id _ hD,
    show ((":" : String).data.map swapComma) = (":" : String).data from by decide,
    show (("," : String).data.map swapComma) = (("." : String).data) from by decide]

theorem count_comma_build (A B C D : String)
    (hA : ∀ c ∈ A.data, c ≠ ',') (hB : ∀ c ∈ B.data, c ≠ ',')
    (hC : ∀ c ∈ C.data, c ≠ ',') (hD : ∀ c ∈ D.data, c ≠ ',') :
    ((A ++ ":" ++ B ++ ":" ++ C ++ "," ++ D) : String).data.count ',' = 1 := by
  simp only [String.data_append, List.count_append]
  rw [List.count_eq_zero.mpr (fun hmem => hA _ hmem rfl),
    List.count_eq_zero.mpr (fun hmem => hB _ hmem rfl),
    List.count_eq_zero.mpr (fun hmem => hC _ hmem rfl),
    List.count_eq_zero.mpr (fun hmem => hD _ hmem rfl),
    show ((":" : String).data.count ',') = 0 from by decide,
    show (("," : String).data.count ',') = 1 from by decide]

/-! Lexicographic monotonicity of the field decomposition. -/

theorem div_mod_step (k t u : ℕ) (h : t ≤ u) :
    t / k < u / k ∨ (t / k = u / k ∧ t % k ≤ u % k) := by
  rcases Nat.lt_or_ge (t / k) (u / k) with h1 | h1
  · exact Or.inl h1
  · have h3 : t / k = u / k := le_antisymm (Nat.div_le_div_right h) h1
    refine Or.inr ⟨h3, ?_⟩
    have ha := Nat.mod_add_div t k
    have hb := Nat.mod_add_div u k
    rw [h3] at ha
    omega

theorem fields_mono_of_le (t u : ℕ) (h : t ≤ u) :
    tsLe (t / 3600000, t % 3600000 / 60000, t % 3600000 % 60000 / 1000,
        t % 3600000 % 60000 % 1000)
      (u / 3600000, u % 3600000 / 60000, u % 3600000 % 60000 / 1000,
        u % 3600000 % 60000 % 1000) := by
  unfold tsLe
  rcases div_mod_step 3600000 t u h with h1 | ⟨h1, h2⟩
  · exact Or.inl h1
  · rcases div_mod_step 60000 _ _ h2 with h3 | ⟨h3, h4⟩
    · exact Or.inr ⟨h1, Or.inl h3⟩
    · rcases div_mod_step 1000 _ _ h4 with h5 | ⟨h5, h6⟩
      · exact Or.inr ⟨h1, Or.inr ⟨h3, Or.inl h5⟩⟩
      · exact Or.inr ⟨h1, Or.inr ⟨h3, Or.inr ⟨h5, h6⟩⟩⟩

theorem tsFields_mono {x y : ℚ} (hxy : x ≤ y) :
    tsLe (tsFields x) (tsFields y) := by
  have h1 : pyRound (x * 1000) ≤ pyRound (y * 1000) :=
    pyRound_mono (by nlinarith)
  have h2 : (pyRound (x * 1000)).toNat ≤ (pyRound (y * 1000)).toNat :=
    Int.toNat_le_toNat h1
  simpa only [tsFields] using
    fields_mono_of_le (pyRound (x * 1000)).toNat (pyRound (y * 1000)).toNat h2

/-! Length facts for the zero-padded fields. -/

theorem natReprCore_length_le :
    ∀ (fuel n : ℕ) (acc : List Char) (w : ℕ), n < 10 ^ w → 0 < w →
      (natReprCore fuel n acc).length ≤ w + acc.length := by
  intro fuel
  induction fuel with
  | zero =>
    intro n acc w _ _
    simp only [natReprCore]
    omega
  | succ fuel ih =>
    intro n acc w hn hw
    by_cases h : n / 10 = 0
    · simp only [natReprCore, if_pos h, List.length_cons]
      omega
    · simp only [natReprCore, if_neg h]
      match w, hw with
      | 1, _ =>
        exfalso
        have : n < 10 := by simpa using hn
        omega
      | w + 2, _ =>
        have hlt : n / 10 < 10 ^ (w + 1) := by
          have hpow : (10 : ℕ) ^ (w + 2) = 10 ^ (w + 1) * 10 := by ring
          rw [Nat.div_lt_iff_lt_mul (by omega)]
          omega
        have := ih (n / 10) (digitChar (n % 10) :: acc) (w + 1) hlt (by omega)
        simp only [List.length_cons] at this
        omega

theorem natRepr_length_le (n w : ℕ) (hn : n < 10 ^ w) (hw : 0 < w) :
    (natRepr n).length ≤ w := by
  have := natReprCore_length_le (n + 1) n [] w hn hw
  simpa [natRepr] using this

theorem padNat_length_eq (w n : ℕ) (h : (natRepr n).length ≤ w) :
    (padNat w n).length = w := by
  simp only [padNat, padLeft, String.length, List.length_append,
    List.length_replicate]
  omega

theorem padNat_length_ge (w n : ℕ) : w ≤ (padNat w n).length := by
  simp only [padNat, padLeft, String.length, List.length_append,
    List.length_replicate]
  omega

/-! The cue text transformation never contains a newline. -/

theorem replaceNl_no_newline (s : String) :
    ((replaceNl s).data.all (fun c => c != '\n')) = true := by
  simp only [replaceNl, List.all_map, List.all_eq_true]
  intro c _
  by_cases h : c = '\n' <;> simp [h]

theorem natRepr_length_le_two (n : ℕ) (h : n < 100) : (natRepr n).length ≤ 2 :=
  natRepr_length_le n 2 (lt_of_lt_of_le h (by norm_num)) (by norm_num)

theorem natRepr_length_le_three (n : ℕ) (h : n < 1000) : (natRepr n).length ≤ 3 :=
  natRepr_length_le n 3 (lt_of_lt_of_le h (by norm_num)) (by norm_num)

/-- C1: for every nonnegative seconds value the exchange formatter computes a
single total-millisecond integer within half a millisecond of 1000 times the
input (round to nearest, not truncation) and derives the hour, minute, second
and millisecond fields from that one integer by division and modulo; in
particular formatting 1.9995 yields 00:00:02,000. -/
theorem srt_rounds_to_nearest_ms :
    (∀ q : ℚ, 0 ≤ q →
      |q * 1000 - (pyRound (q * 1000) : ℚ)| ≤ 1/2 ∧
      format_timestamp_srt q = stampStr "," (tsFields q)) ∧
    format_timestamp_srt (1.9995 : ℚ) = "00:00:02,000" := by
  constructor
  · intro q hq
    exact ⟨pyRound_nearest (q * 1000), format_srt_eq_stamp q hq⟩
  · exact fmt_srt_tie

/-- C1 witness: the general statement instantiated at 1.9995. -/
theorem srt_rounds_to_nearest_ms_witness :
    |(1.9995 : ℚ) * 1000 - (pyRound ((1.9995 : ℚ) * 1000) : ℚ)| ≤ 1/2 ∧
    format_timestamp_srt (1.9995 : ℚ) = stampStr "," (tsFields (1.9995 : ℚ)) :=
  srt_rounds_to_nearest_ms.1 (1.9995 : ℚ) (by norm_num)

/-- C4 counterexample: the plain writer does not collapse internal line
breaks; on a segment whose text is a\nb it writes the newline through. -/
theorem write_txt_keeps_newline :
    write_txt [⟨0, 1, "a\nb"⟩] = "a\nb\n" ∧ write_txt [⟨0, 1, "a\nb"⟩] ≠ "a b\n" := by
  constructor
  · decide
  · decide

/-- C4 amended: the exchange and web writers write each segment text trimmed
with every internal newline replaced by a single space (so the written cue
text contains no newline), while the plain writer writes each segment text
only trimmed, leaving internal newlines intact. -/
theorem writers_text_processing (segs : List Segment) :
    (∀ seg ∈ segs,
      ((replaceNl (pyStrip seg.text)).data.all (fun c => c != '\n')) = true) ∧
    write_srt segs = String.join ((List.enumFrom 1 segs).map (fun p =>
      String.mk (natRepr p.1) ++ "\n" ++ format_timestamp_srt p.2.start ++ " --> " ++
      format_timestamp_srt p.2.«end» ++ "\n" ++ replaceNl (pyStrip p.2.text) ++ "\n\n")) ∧
    write_vtt segs = "WEBVTT\n\n" ++ String.join (segs.map (fun seg =>
      format_timestamp_vtt seg.start ++ " --> " ++ format_timestamp_vtt seg.«end» ++ "\n" ++
      replaceNl (pyStrip seg.text) ++ "\n\n")) ∧
    write_txt segs = String.join (segs.map (fun seg => pyStrip seg.text ++ "\n")) :=
  ⟨fun seg _ => replaceNl_no_newline (pyStrip seg.text), rfl, rfl, rfl⟩

/-- C4 witness: the amended statement instantiated on one segment with an
internal newline and surrounding whitespace. -/
theorem writers_text_processing_witness :
    ((replaceNl (pyStrip " x\ny ")).data.all (fun c => c != '\n')) = true :=
  (writers_text_processing [⟨0, 1, " x\ny "⟩]).1 ⟨0, 1, " x\ny "⟩
    (List.mem_singleton.mpr rfl)

/-- C5: on an empty transcription result no writer diverges or fails: the web
writer emits exactly the header and its blank line, the exchange and plain
writers emit empty content. -/
theorem writers_empty_result :
    write_srt [] = "" ∧ write_vtt [] = "WEBVTT\n\n" ∧ write_txt [] = "" := by
  refine ⟨by decide, by decide, by decide⟩

/-- C7: on the three given segments the exchange writer emits exactly three
blocks in input order numbered 1, 2, 3, each an index line, a timestamp line,
the text and a blank separator, with the shared boundary 1.5 rendered
identically as 00:00:01,500 in block 1 and block 2. -/
theorem srt_three_blocks :
    write_srt [⟨0, 1.5, "Hello"⟩, ⟨1.5, 3, "world"⟩, ⟨3, 4.2, "!"⟩] =
      "1\n00:00:00,000 --> 00:00:01,500\nHello\n\n" ++
      "2\n00:00:01,500 --> 00:00:03,000\nworld\n\n" ++
      "3\n00:00:03,000 --> 00:00:04,200\n!\n\n" := by
  show String.join
      [String.mk (natRepr 1) ++ "\n" ++ format_timestamp_srt 0 ++ " --> " ++
        format_timestamp_srt 1.5 ++ "\n" ++ replaceNl (pyStrip "Hello") ++ "\n\n",
       String.mk (natRepr 2) ++ "\n" ++ format_timestamp_srt 1.5 ++ " --> " ++
        format_timestamp_srt 3 ++ "\n" ++ replaceNl (pyStrip "world") ++ "\n\n",
       String.mk (natRepr 3) ++ "\n" ++ format_timestamp_srt 3 ++ " --> " ++
        format_timestamp_srt 4.2 ++ "\n" ++ replaceNl (pyStrip "!") ++ "\n\n"] = _
  rw [fmt_srt_zero, fmt_srt_three_halves, fmt_srt_three, fmt_srt_fourtwo]
  decide

/-- C6: for every nonnegative seconds value both formatters produce the
triple of zero-padded fields with the stated separators: minutes and seconds
below 60, milliseconds below 1000, hours the full quotient by 3600000 (never
wrapped at 24), minute, second and millisecond fields exactly 2, 2 and 3
characters wide and the hour field at least 2 characters wide. -/
theorem formatter_field_shape (q : ℚ) (hq : 0 ≤ q) :
    format_timestamp_srt q = stampStr "," (tsFields q) ∧
    format_timestamp_vtt q = stampStr "." (tsFields q) ∧
    (tsFields q).1 = (pyRound (q * 1000)).toNat / 3600000 ∧
    (tsFields q).2.1 < 60 ∧ (tsFields q).2.2.1 < 60 ∧ (tsFields q).2.2.2 < 1000 ∧
    2 ≤ (padNat 2 (tsFields q).1).length ∧
    (padNat 2 (tsFields q).2.1).length = 2 ∧
    (padNat 2 (tsFields q).2.2.1).length = 2 ∧
    (padNat 3 (tsFields q).2.2.2).length = 3 := by
  have hm : (tsFields q).2.1 < 60 := by
    show (pyRound (q * 1000)).toNat % 3600000 / 60000 < 60
    omega
  have hs : (tsFields q).2.2.1 < 60 := by
    show (pyRound (q * 1000)).toNat % 3600000 % 60000 / 1000 < 60
    omega
  have hms : (tsFields q).2.2.2 < 1000 := by
    show (pyRound (q * 1000)).toNat % 3600000 % 60000 % 1000 < 1000
    omega
  refine ⟨format_srt_eq_stamp q hq, format_vtt_eq_stamp q hq, rfl, hm, hs, hms,
    padNat_length_ge 2 _, ?_, ?_, ?_⟩
  · exact padNat_length_eq 2 _ (natRepr_length_le_two _ (by omega))
  · exact padNat_length_eq 2 _ (natRepr_length_le_two _ (by omega))
  · exact padNat_length_eq 3 _ (natRepr_length_le_three _ (by omega))

/-- C6 witness: the shape statement instantiated at 90000 seconds, which is
25 hours, demonstrating the unbounded hour field. -/
theorem formatter_field_shape_witness :
    format_timestamp_srt 90000 = stampStr "," (tsFields 90000) ∧
    format_timestamp_vtt 90000 = stampStr "." (tsFields 90000) ∧
    (tsFields 90000).1 = (pyRound ((90000 : ℚ) * 1000)).toNat / 3600000 ∧
    (tsFields 90000).2.1 < 60 ∧ (tsFields 90000).2.2.1 < 60 ∧
    (tsFields 90000).2.2.2 < 1000 ∧
    2 ≤ (padNat 2 (tsFields 90000).1).length ∧
    (padNat 2 (tsFields 90000).2.1).length = 2 ∧
    (padNat 2 (tsFields 90000).2.2.1).length = 2 ∧
    (padNat 3 (tsFields 90000).2.2.2).length = 3 :=
  formatter_field_shape 90000 (by norm_num)

/-- C8: formatting is monotonically nondecreasing: for nonnegative x at most
y, the field quadruples of both codecs, which the formatted strings render
with the stated separators, compare lexicographically by numeric fields. -/
theorem formatter_monotone (x y : ℚ) (hx : 0 ≤ x) (hxy : x ≤ y) :
    tsLe (tsFields x) (tsFields y) ∧
    format_timestamp_srt x = stampStr "," (tsFields x) ∧
    format_timestamp_vtt x = stampStr "." (tsFields x) ∧
    format_timestamp_srt y = stampStr "," (tsFields y) ∧
    format_timestamp_vtt y = stampStr "." (tsFields y) :=
  ⟨tsFields_mono hxy, format_srt_eq_stamp x hx, format_vtt_eq_stamp x hx,
    format_srt_eq_stamp y (le_trans hx hxy), format_vtt_eq_stamp y (le_trans hx hxy)⟩

/-- C8 witness: monotonicity instantiated at 1 and 2 seconds. -/
theorem formatter_monotone_witness :
    tsLe (tsFields 1) (tsFields 2) ∧
    format_timestamp_srt 1 = stampStr "," (tsFields 1) ∧
    format_timestamp_vtt 1 = stampStr "." (tsFields 1) ∧
    format_timestamp_srt 2 = stampStr "," (tsFields 2) ∧
    format_timestamp_vtt 2 = stampStr "." (tsFields 2) :=
  formatter_monotone 1 2 (by norm_num) (by norm_num)

/-- C9: for every seconds value the web format string equals the exchange
format string with its single comma, the only comma in the string, replaced
by a period. -/
theorem vtt_eq_srt_comma_swapped (q : ℚ) :
    format_timestamp_vtt q = commaToPeriod (format_timestamp_srt q) ∧
    (format_timestamp_srt q).data.count ',' = 1 := by
  constructor
  · simp only [format_timestamp_srt, format_timestamp_vtt]
    exact (commaToPeriod_build _ _ _ _ (padInt_ne_comma _ _) (padInt_ne_comma _ _)
      (padInt_ne_comma _ _) (padInt_ne_comma _ _)).symm
  · simp only [format_timestamp_srt]
    exact count_comma_build _ _ _ _ (padInt_ne_comma _ _) (padInt_ne_comma _ _)
      (padInt_ne_comma _ _) (padInt_ne_comma _ _)

/-- C2 counterexample: with both backend packages importable, a call-time
failure of the faster backend propagates out of transcribe; the secondary
backend result is not returned. -/
theorem call_time_failure_propagates :
    (transcribe { inputExists := true, isAudioExt := true, ffmpegOnPath := true,
                  ffmpegOk := true, fwImportOk := true, owImportOk := true,
                  fwRun := Except.error "model load failed",
                  owRun := Except.ok [⟨0, 1, "hi"⟩] }).result = Except.error "model load failed" ∧
    (transcribe { inputExists := true, isAudioExt := true, ffmpegOnPath := true,
                  ffmpegOk := true, fwImportOk := true, owImportOk := true,
                  fwRun := Except.error "model load failed",
                  owRun := Except.ok [⟨0, 1, "hi"⟩] }).result ≠ Except.ok [⟨0, 1, "hi"⟩] := by
  constructor
  · rfl
  · intro h
    exact Except.noConfusion h

/-- C2 amended: the backend is fixed at import time: whenever the
faster_whisper import succeeded the pipeline calls only that backend and any
call-time failure propagates; the reference backend is called only when the
faster import failed and its own import succeeded; the no-backend error is
raised only when neither import succeeded. -/
theorem backend_selection_import_time (env : TranscribeEnv)
    (hin : env.inputExists = true) (hpath : env.ffmpegOnPath = true)
    (hok : env.ffmpegOk = true) :
    (env.fwImportOk = true → (transcribe env).result = env.fwRun) ∧
    (env.fwImportOk = false → env.owImportOk = true →
      (transcribe env).result = env.owRun) ∧
    (env.fwImportOk = false → env.owImportOk = false → (transcribe env).result =
      Except.error
        "No whisper backend available. Install faster-whisper or openai-whisper.") := by
  refine ⟨fun h1 => ?_, fun h1 h2 => ?_, fun h1 h2 => ?_⟩ <;>
    simp [transcribe, USE_FASTER_WHISPER, whisperLoaded, hin, hpath, hok, h1] <;>
    simp [h2]

/-- C2 witness: the amended statement applied to a run whose selected faster
backend raises at call time. -/
theorem backend_selection_import_time_witness :
    (transcribe { inputExists := true, isAudioExt := false, ffmpegOnPath := true,
                  ffmpegOk := true, fwImportOk := true, owImportOk := true,
                  fwRun := Except.error "load failure",
                  owRun := Except.ok [] }).result = Except.error "load failure" :=
  (backend_selection_import_time _ rfl rfl rfl).1 rfl

/-- C3 counterexample: a fully successful run reports its temporary
directory as created and not removed when transcribe returns. -/
theorem temp_dir_not_removed_on_success :
    (transcribe { inputExists := true, isAudioExt := true, ffmpegOnPath := true,
                  ffmpegOk := true, fwImportOk := true, owImportOk := false,
                  fwRun := Except.ok [⟨0, 1, "ok"⟩], owRun := Except.error "unused" }).result =
      Except.ok [⟨0, 1, "ok"⟩] ∧
    (transcribe { inputExists := true, isAudioExt := true, ffmpegOnPath := true,
                  ffmpegOk := true, fwImportOk := true, owImportOk := false,
                  fwRun := Except.ok [⟨0, 1, "ok"⟩], owRun := Except.error "unused" }).tempDirCreated
      = true ∧
    (transcribe { inputExists := true, isAudioExt := true, ffmpegOnPath := true,
                  ffmpegOk := true, fwImportOk := true, owImportOk := false,
                  fwRun := Except.ok [⟨0, 1, "ok"⟩], owRun := Except.error "unused" }).tempDirRemoved
      = false :=
  ⟨rfl, rfl, rfl⟩

/-- C3 amended: the finally block of transcribe is a deliberate no-op: the
per-run temporary directory is never removed, on success and on every
failure path alike; it is created exactly when the input path exists. -/
theorem temp_dir_never_removed (env : TranscribeEnv) :
    (transcribe env).tempDirRemoved = false ∧
    (transcribe env).tempDirCreated = env.inputExists := by
  cases henv : env.inputExists <;> simp [transcribe, henv]

/-- C10: when transcription returns an empty segment list, main returns
early and writes none of the three files; with a nonempty list it writes
all three. -/
theorem main_writes_empty_guard (base : String) :
    main_writes base [] = [] ∧
    ∀ segs : List Segment, segs ≠ [] →
      main_writes base segs =
        [(base ++ ".srt", write_srt segs), (base ++ ".vtt", write_vtt segs),
         (base ++ ".txt", write_txt segs)] := by
  constructor
  · rfl
  · intro segs h
    cases segs with
    | nil => exact absurd rfl h
    | cons a t => simp [main_writes]

/-- C10 witness: the guard instantiated on the empty list and a one-segment
list. -/
theorem main_writes_empty_guard_witness :
    main_writes "out" [] = [] ∧
    main_writes "out" [⟨0, 1, "hi"⟩] =
      [("out" ++ ".srt", write_srt [⟨0, 1, "hi"⟩]),
       ("out" ++ ".vtt", write_vtt [⟨0, 1, "hi"⟩]),
       ("out" ++ ".txt", write_txt [⟨0, 1, "hi"⟩])] :=
  ⟨(main_writes_empty_guard "out").1,
    (main_writes_empty_guard "out").2 [⟨0, 1, "hi"⟩] (by decide)⟩
